import Mathlib

/-!
# Verification of the options_pricing_v2 pricing-stack core

Shallow embedding of the repository's core:
* the expiry-schedule generator of
  `pricing_engine/environment/market_env.py` (`_get_weekly_expiries`,
  `_get_third_friday_expiries`, `_generate_expiries`);
* the model and engine factories of `src/models/factory.py` together with
  `src/models/black_scholes.py`, `src/models/heston.py`, `src/engine/engines.py`;
* the option instrument of `pricing_engine/instruments/option.py` (and the
  draft copy `src/instruments/option.py`, which differs in `payoff`).

Dates are modelled as QuantLib serial numbers (`Nat`).  QuantLib's
`Date.weekday()` convention is Sunday = 1, …, Friday = 6, Saturday = 7, and a
serial `s` has `weekday s = if s % 7 = 0 then 7 else s % 7` (e.g. the serial
45296 of 2024-01-05 satisfies `45296 % 7 = 6`, a Friday).  Monetary values and
rates are modelled as `ℚ`.
-/

namespace OptionsPricing

/-- QuantLib-style serial number of a Gregorian date (Excel-compatible:
1970-01-01 ↦ 25569).  Uses the standard days-from-civil computation shifted so
that all quantities stay in `Nat` for years ≥ 1901; the repository only ever
handles 20th/21st-century dates. -/
def serialOfYmd (y m d : Nat) : Nat :=
  let yr := if m ≤ 2 then y - 1 else y
  let mp := if m ≤ 2 then m + 9 else m - 3
  yr / 400 * 146097
    + (yr % 400 * 365 + yr % 400 / 4 - yr % 400 / 100
        + ((153 * mp + 2) / 5 + d - 1))
    - 693899

/-- `ql.Date.weekday()`: Sunday = 1, …, Friday = 6, Saturday = 7. -/
def weekday (s : Nat) : Nat :=
  if s % 7 = 0 then 7 else s % 7

/-- The calendar service (`ql.Calendar` holiday data is external to the
repository): a calendar is its holiday predicate on serial dates. -/
structure Calendar where
  isHoliday : Nat → Bool

/-- `ql.Calendar.isBusinessDay`: neither a weekend (Saturday = 7, Sunday = 1
in QuantLib's weekday numbering) nor a listed holiday. -/
def Calendar.isBusinessDay (cal : Calendar) (s : Nat) : Bool :=
  !(weekday s == 7) && !(weekday s == 1) && !(cal.isHoliday s)

/-- Fuel-driven translation of the roll loop inside
`ql.Calendar.adjust(date, ql.Preceding)`: step backwards one day at a time
until a business day is reached.  The fuel (initialised to the serial itself,
so the loop can walk all the way back to serial 0) only forces termination;
every calendar the repository configures leaves business days within a few
days below any Friday, so the fuel is never exhausted in practice. -/
def adjustPrecedingGo (cal : Calendar) : Nat → Nat → Nat
  | 0, s => s
  | fuel + 1, s => if cal.isBusinessDay s then s else adjustPrecedingGo cal fuel (s - 1)

/-- `calendar.adjust(s, ql.Preceding)`. -/
def Calendar.adjust (cal : Calendar) (s : Nat) : Nat :=
  adjustPrecedingGo cal s s

/-- Fuel-driven translation of the `while friday.weekday() != 6: friday += 1`
loop: step forward one day at a time until a Friday (weekday 6) is reached.
Seven units of fuel always suffice (see `advanceToFriday_weekday`). -/
def advanceToFridayGo : Nat → Nat → Nat
  | 0, s => s
  | fuel + 1, s => if weekday s = 6 then s else advanceToFridayGo fuel (s + 1)

/-- The day-by-day walk to the next Friday, with enough fuel for a full week. -/
def advanceToFriday (s : Nat) : Nat :=
  advanceToFridayGo 7 s

/-- The `for i in range(n_weeks)` loop of `_get_weekly_expiries`: from the
previous (already rolled) Friday, add one week, walk forward day-by-day to the
next Friday, roll it back to the preceding business day, emit it. -/
def weeklyLoop (cal : Calendar) : Nat → Nat → List Nat
  | 0, _ => []
  | n + 1, friday =>
    let f := advanceToFriday (friday + 7)
    let f := cal.adjust f
    f :: weeklyLoop cal n f

/-- `MarketEnvironment._get_weekly_expiries(self, n_weeks=4)`.
`d` is the pricing date's serial.  The anchor offset `(6 - weekday) % 7` of the
Python source is written `(6 + 7 - weekday d) % 7`, which agrees with Python's
nonnegative `%` for every `weekday d ∈ {1, …, 7}`. -/
def getWeeklyExpiries (cal : Calendar) (d : Nat) (n_weeks : Nat := 4) : List Nat :=
  let daysUntilFriday := (6 + 7 - weekday d) % 7
  let friday := cal.adjust (d + daysUntilFriday)
  friday :: weeklyLoop cal n_weeks friday

/-- One month's entry of `_get_third_friday_expiries`: first calendar day of
the month, plus 14 days, walked forward to the next Friday, rolled back to the
preceding business day. -/
def thirdFridayOfMonth (cal : Calendar) (y m : Nat) : Nat :=
  let firstDay := serialOfYmd y m 1
  cal.adjust (advanceToFriday (firstDay + 14))

/-- The raw monthly list of `_get_third_friday_expiries` before the drop and
truncation steps: entry `i` is the (rolled) third Friday of the `i`-th month
from the pricing month `(y, m)`, with Python's
`year, month = divmod(month_offset - 1, 12)` normalisation. -/
def thirdFridayRaw (cal : Calendar) (y m n : Nat) : List Nat :=
  (List.range n).map fun i =>
    thirdFridayOfMonth cal (y + (m + i - 1) / 12) ((m + i - 1) % 12 + 1)

/-- `MarketEnvironment._get_third_friday_expiries(self, n_months=13)`.
The pricing date is passed as `(y, m, day)`; its serial is `serialOfYmd y m day`
(the Python source reads `pricing_date.month()`/`.year()` off the same date).
`expiries.pop(0)` is the tail of a necessarily nonempty list (the Python code
would raise `IndexError` on an empty one; `n_months ≥ 1` always holds);
`expiries[-1]` is `getLastD` of a list the `6 < length` guard proves nonempty. -/
def getThirdFridayExpiries (cal : Calendar) (y m day : Nat) (n_months : Nat := 13) :
    List Nat :=
  let d := serialOfYmd y m day
  let expiries := thirdFridayRaw cal y m n_months
  let expiries :=
    match expiries with
    | [] => []
    | e0 :: rest => if d > e0 then rest else e0 :: rest
  if 6 < expiries.length then expiries.take 6 ++ [expiries.getLastD 0] else expiries

/-- `MarketEnvironment._generate_expiries(self, n_weeklies=4, n_monthlies=13)`:
concatenate weeklies and monthlies, then `sorted(set(...))` — deduplicate and
sort ascending. -/
def generateExpiries (cal : Calendar) (y m day : Nat)
    (n_weeklies : Nat := 4) (n_monthlies : Nat := 13) : List Nat :=
  ((getWeeklyExpiries cal (serialOfYmd y m day) n_weeklies
      ++ getThirdFridayExpiries cal y m day n_monthlies).dedup).insertionSort (· ≤ ·)

/-! ## Global QuantLib settings and the market environment

`ql.Settings.instance()` is process-wide mutable state; the embedding threads
it explicitly.  `MarketEnvironment.__init__` derives the expiry schedule and
then assigns `ql.Settings.instance().evaluationDate = self.pricing_date`. -/

/-- The process-wide `ql.Settings` singleton: just the evaluation date. -/
structure QlSettings where
  evaluationDate : Nat
deriving DecidableEq

/-- The fields of `MarketEnvironment` the core claims consult.  The curve,
vol-surface and underlying members are opaque external objects and are not
needed by any claim. -/
structure MarketEnvironment where
  pricingDate : Nat
  calendar : Calendar
  expiries : List Nat

/-- `MarketEnvironment.__init__`: stores the inputs, computes
`self.expiries = self._generate_expiries()`, and finally mutates the global
settings (`ql.Settings.instance().evaluationDate = self.pricing_date`).
The pricing date is passed as `(y, m, day)`; the stored `ql.Date` is its
serial.  Returns the constructed environment together with the updated global
settings. -/
def MarketEnvironment.init (y m day : Nat) (cal : Calendar) (_s : QlSettings) :
    MarketEnvironment × QlSettings :=
  let d := serialOfYmd y m day
  (⟨d, cal, generateExpiries cal y m day⟩, ⟨d⟩)

/-! ## Models and the model factory (`src/models/*.py`) -/

/-- Flat yield curves are the only ones the repository builds; the claims need
no structure beyond identity, so a curve is its flat rate. -/
structure YieldCurve where
  rate : ℚ
deriving DecidableEq

/-- A built volatility surface object as passed to `ModelFactory.create_model`.
`black` is a `ql.BlackVolTermStructure` (the only kind the repository's
volatility factory produces); `nonBlack` stands for any other Python object,
which fails the `isinstance(…, ql.BlackVolTermStructure)` check in
`BlackScholesModel.build`. -/
inductive QlVolSurface
  | black (vol : ℚ)
  | nonBlack
deriving DecidableEq

/-- The five Heston parameters (`HestonParams` of the config schema). -/
structure HestonParams where
  v0 : ℚ
  kappa : ℚ
  theta : ℚ
  sigma : ℚ
  rho : ℚ
deriving DecidableEq

/-- `src/models/black_scholes.py::BlackScholesModel.__init__` field layout.
`vol_surface` may be `None` (the factory's default). -/
structure BlackScholesModel where
  spot : ℚ
  dividend_curve : YieldCurve
  risk_free_curve : YieldCurve
  vol_surface : Option QlVolSurface
deriving DecidableEq

/-- `src/models/heston.py::HestonModel.__init__` field layout.  `params` may be
`None` (the factory's default for `heston_params`). -/
structure HestonModel where
  spot : ℚ
  risk_free_curve : YieldCurve
  dividend_curve : YieldCurve
  params : Option HestonParams
deriving DecidableEq

/-- The built `ql.BlackScholesMertonProcess`. -/
structure BsmProcess where
  spot : ℚ
  dividend_curve : YieldCurve
  risk_free_curve : YieldCurve
  vol : ℚ
deriving DecidableEq

/-- The built `ql.HestonModel` (wrapping a `ql.HestonProcess`). -/
structure HestonQlModel where
  risk_free_curve : YieldCurve
  dividend_curve : YieldCurve
  spot : ℚ
  params : HestonParams
deriving DecidableEq

/-- `BlackScholesModel.build`: raises `TypeError` unless `vol_surface` is a
`ql.BlackVolTermStructure`; otherwise assembles the BSM process. -/
def BlackScholesModel.build (m : BlackScholesModel) : Except String BsmProcess :=
  match m.vol_surface with
  | some (.black v) =>
    .ok ⟨m.spot, m.dividend_curve, m.risk_free_curve, v⟩
  | _ => .error "TypeError: vol_surface must be a QuantLib BlackVolTermStructure"

/-- `HestonModel.build`: reads `self.params.v0`, …, `self.params.rho`; with
`params = None` this raises `AttributeError` (no validation happens any
earlier).  Otherwise assembles the Heston process/model. -/
def HestonModel.build (m : HestonModel) : Except String HestonQlModel :=
  match m.params with
  | some p => .ok ⟨m.risk_free_curve, m.dividend_curve, m.spot, p⟩
  | none => .error "AttributeError: NoneType object has no attribute v0"

/-- The two model variants `ModelFactory` can produce. -/
inductive Model
  | bsm (m : BlackScholesModel)
  | heston (m : HestonModel)
deriving DecidableEq

/-- `ModelFactory.create_model(model_type, spot, dividend_curve,
risk_free_curve, vol_surface=None, heston_params=None)`. -/
def ModelFactory.create_model (model_type : String) (spot : ℚ)
    (dividend_curve risk_free_curve : YieldCurve)
    (vol_surface : Option QlVolSurface := none)
    (heston_params : Option HestonParams := none) : Except String Model :=
  if model_type = "bsm" then
    .ok (.bsm ⟨spot, dividend_curve, risk_free_curve, vol_surface⟩)
  else if model_type = "heston" then
    .ok (.heston ⟨spot, risk_free_curve, dividend_curve, heston_params⟩)
  else
    .error ("Unknown model type: " ++ model_type)

/-! ## Engines and the engine factory (`src/engine/engines.py`,
`src/models/factory.py::EngineFactory`) -/

/-- The concrete QuantLib engines the wrappers' `build()` methods return. -/
inductive QlEngine
  | binomialVanilla (process : BsmProcess) (method : String) (steps : Nat)
  | analyticEuropean (process : BsmProcess)
  | analyticHeston (model : HestonQlModel)
deriving DecidableEq

/-- `BinomialEngine(model_process, steps).build()` =
`ql.BinomialVanillaEngine(model_process, 'crr', steps)`. -/
def BinomialEngine.build (model_process : BsmProcess) (steps : Nat) : QlEngine :=
  .binomialVanilla model_process "crr" steps

/-- `AnalyticEuropeanEngine(model_process).build()`. -/
def AnalyticEuropeanEngine.build (model_process : BsmProcess) : QlEngine :=
  .analyticEuropean model_process

/-- `HestonEngine(model_process).build()`. -/
def HestonEngine.build (model_process : HestonQlModel) : QlEngine :=
  .analyticHeston model_process

/-- `EngineFactory.create_engine(model, engine_type, steps=100)`: dispatch on
the model's class, build the model's process first (`model.build()` — whose
exception propagates), wrap it in the chosen engine class, and return the
wrapper's `build()` result.  Unmatched `engine_type` values raise `ValueError`
before any `build()` is attempted.  (The final Python `else` branch for objects
that are neither model class is unreachable in the typed embedding.) -/
def EngineFactory.create_engine (model : Model) (engine_type : String)
    (steps : Nat := 100) : Except String QlEngine :=
  match model with
  | .bsm m =>
    if engine_type = "binomial" then
      (m.build).map fun p => BinomialEngine.build p steps
    else if engine_type = "analytic" then
      (m.build).map fun p => AnalyticEuropeanEngine.build p
    else
      .error ("Unknown engine type for Black-Scholes: " ++ engine_type)
  | .heston m =>
    if engine_type = "heston" then
      (m.build).map fun p => HestonEngine.build p
    else
      .error ("Unknown engine type for Heston model: " ++ engine_type)

/-! ## Option instrument (`pricing_engine/instruments/option.py`, with the
divergent draft `src/instruments/option.py`) -/

/-- `ql.Option.Call` / `ql.Option.Put`. -/
inductive QlOptionType
  | Call
  | Put
deriving DecidableEq

/-- `ql.PlainVanillaPayoff(option_type, strike)`. -/
structure PlainVanillaPayoff where
  otype : QlOptionType
  strike : ℚ
deriving DecidableEq

/-- `ql.EuropeanExercise(expiry)` / `ql.AmericanExercise(earliest, latest)`. -/
inductive Exercise
  | european (expiry : Nat)
  | american (earliest latest : Nat)
deriving DecidableEq

/-- `ql.VanillaOption(payoff, exercise)`. -/
structure VanillaOption where
  payoff : PlainVanillaPayoff
  exercise : Exercise
deriving DecidableEq

/-- `OptionInstrument.__init__` field layout (identical in both copies):
construction stores the six arguments verbatim and performs no validation.
An absent engine is `None` (falsy in the `if not self.engine` check). -/
structure OptionInstrument where
  option_type : String
  strike : ℚ
  expiry : Nat
  style : String
  engine : Option QlEngine
  bid_ask_spread : ℚ

/-- `pricing_engine/instruments/option.py::OptionInstrument._payoff`. -/
def OptionInstrument.payoff (inst : OptionInstrument) :
    Except String PlainVanillaPayoff :=
  if inst.option_type = "call" then
    .ok ⟨.Call, inst.strike⟩
  else if inst.option_type = "put" then
    .ok ⟨.Put, inst.strike⟩
  else
    .error ("Unknown option type: " ++ inst.option_type)

/-- `src/instruments/option.py::OptionInstrument.payoff` — the draft copy.
Its `put` branch reads `ql.Option.put` (lowercase), an attribute that does not
exist, so instead of returning a payoff it raises `AttributeError` before
`ql.PlainVanillaPayoff` is ever called. -/
def OptionInstrument.payoffSrcDraft (inst : OptionInstrument) :
    Except String PlainVanillaPayoff :=
  if inst.option_type = "call" then
    .ok ⟨.Call, inst.strike⟩
  else if inst.option_type = "put" then
    .error "AttributeError: type object Option has no attribute put"
  else
    .error ("Unknown option type: " ++ inst.option_type)

/-- `OptionInstrument._exercise` (identical logic in both copies): the
American branch reads `today = ql.Settings.instance().evaluationDate`, i.e.
the process-wide state threaded here as `settings`. -/
def OptionInstrument.exercise (inst : OptionInstrument) (settings : QlSettings) :
    Except String Exercise :=
  if inst.style = "european" then
    .ok (.european inst.expiry)
  else if inst.style = "american" then
    .ok (.american settings.evaluationDate inst.expiry)
  else
    .error ("Unknown option style: " ++ inst.style)

/-- `OptionInstrument._build_option`:
`ql.VanillaOption(self._payoff(), self._exercise())` — Python evaluates the
payoff argument first, so a payoff error masks an exercise error. -/
def OptionInstrument.build_option (inst : OptionInstrument)
    (settings : QlSettings) : Except String VanillaOption := do
  let p ← inst.payoff
  let e ← inst.exercise settings
  return ⟨p, e⟩

/-- The bid/mid/ask dictionary `price()` returns. -/
structure PriceQuote where
  mid : ℚ
  bid : ℚ
  ask : ℚ
deriving DecidableEq

/-- `pricing_engine/instruments/option.py::OptionInstrument.price`.
`npv` is the external quantitative-calculus library: given the engine attached
to the option and the built option, it returns `option.NPV()`.  The method
builds the option first, only then checks `if not self.engine`, computes the
mid, and derives bid/ask from the spread. -/
def OptionInstrument.price (inst : OptionInstrument) (settings : QlSettings)
    (npv : QlEngine → VanillaOption → ℚ) : Except String PriceQuote := do
  let option ← inst.build_option settings
  match inst.engine with
  | none =>
    .error "No pricing engine set. Pass it during init or set `self.engine` before calling price()."
  | some eng =>
    let mid := npv eng option
    let (bid, ask) :=
      if inst.bid_ask_spread > 0 then
        (mid - inst.bid_ask_spread / 2, mid + inst.bid_ask_spread / 2)
      else
        (mid, mid)
    return ⟨mid, bid, ask⟩

/-! ## Helper lemmas on the date arithmetic and the generators -/

-- Sanity checks of the serial arithmetic against known dates.
example : serialOfYmd 2024 1 5 = 45296 := by decide
example : weekday (serialOfYmd 2024 1 5) = 6 := by decide
example : weekday (serialOfYmd 2024 1 2) = 3 := by decide
example : serialOfYmd 2024 3 29 = 45380 := by decide
example : weekday (serialOfYmd 2024 3 29) = 6 := by decide

/-- The day-by-day walk with seven units of fuel really lands on a Friday, so
the fuel-driven translation agrees with the unbounded Python `while` loop. -/
lemma advanceToFriday_weekday (s : Nat) : weekday (advanceToFriday s) = 6 := by
  have h : s % 7 = 0 ∨ s % 7 = 1 ∨ s % 7 = 2 ∨ s % 7 = 3 ∨ s % 7 = 4 ∨
      s % 7 = 5 ∨ s % 7 = 6 := by omega
  rcases h with h | h | h | h | h | h | h <;>
    simp [advanceToFriday, advanceToFridayGo, weekday, Nat.add_mod, h]

/-- Within a month the serial is linear in the day, so any day ≤ 31 is at most
30 days after the first of the month. -/
lemma serial_day_le_31 (y m day : Nat) (hd : day ≤ 31) :
    serialOfYmd y m day ≤ serialOfYmd y m 1 + 30 := by
  by_cases h : m ≤ 2 <;> simp only [serialOfYmd, h, if_true, if_false] <;> omega

/-- Stepping to the following month (with the `divmod` normalisation the
generator uses) advances the serial of the first of the month by at least a
shortest month. -/
lemma serial_next_month (y m : Nat) (hm1 : 1 ≤ m) (hm2 : m ≤ 12) (hy : 1901 ≤ y) :
    serialOfYmd y m 1 + 28 ≤ serialOfYmd (y + m / 12) (m % 12 + 1) 1 := by
  interval_cases m <;> (simp only [serialOfYmd]; norm_num; omega)

/-- The first of the `i`-th month after `(y, m)` (for `i ≥ 1`) is at least 28
days after the first of `(y, m)`. -/
lemma serial_month_idx (y m : Nat) (hm1 : 1 ≤ m) (hm2 : m ≤ 12) (hy : 1901 ≤ y) :
    ∀ i, 1 ≤ i →
      serialOfYmd y m 1 + 28
        ≤ serialOfYmd (y + (m + i - 1) / 12) ((m + i - 1) % 12 + 1) 1 := by
  intro i
  induction i with
  | zero => intro h; exact absurd h (by omega)
  | succ i ih =>
    intro _
    by_cases hi : 1 ≤ i
    · have h1 := ih hi
      have hk1 : 1 ≤ (m + i - 1) % 12 + 1 := by omega
      have hk2 : (m + i - 1) % 12 + 1 ≤ 12 := by omega
      have hy2 : 1901 ≤ y + (m + i - 1) / 12 := by omega
      have h2 := serial_next_month (y + (m + i - 1) / 12) ((m + i - 1) % 12 + 1) hk1 hk2 hy2
      have e1 : y + (m + i - 1) / 12 + ((m + i - 1) % 12 + 1) / 12
          = y + (m + (i + 1) - 1) / 12 := by omega
      have e2 : ((m + i - 1) % 12 + 1) % 12 + 1 = (m + (i + 1) - 1) % 12 + 1 := by omega
      rw [e1, e2] at h2
      omega
    · have hz : i = 0 := by omega
      subst hz
      have h := serial_next_month y m hm1 hm2 hy
      have e1 : y + m / 12 = y + (m + 1 - 1) / 12 := by omega
      have e2 : m % 12 + 1 = (m + 1 - 1) % 12 + 1 := by omega
      rw [e1, e2] at h
      exact h

/-- The preceding-roll never crosses a business day, so it never lands strictly
before a business-day lower bound. -/
lemma adjustPrecedingGo_ge (cal : Calendar) (d : Nat)
    (hb : cal.isBusinessDay d = true) :
    ∀ fuel s, d ≤ s → d ≤ adjustPrecedingGo cal fuel s := by
  intro fuel
  induction fuel with
  | zero => intro s hs; simpa [adjustPrecedingGo] using hs
  | succ fuel ih =>
    intro s hs
    simp only [adjustPrecedingGo]
    split
    · exact hs
    · next hbs =>
      apply ih
      have hne : d ≠ s := by
        intro h
        rw [h] at hb
        exact hbs hb
      omega

/-- If `d` is a business day and `d ≤ s`, rolling `s` backward to the
preceding business day stays at or after `d`. -/
lemma Calendar.adjust_ge (cal : Calendar) (d s : Nat)
    (hb : cal.isBusinessDay d = true) (hs : d ≤ s) : d ≤ cal.adjust s :=
  adjustPrecedingGo_ge cal d hb s s hs

/-- Walking forward to the next Friday never moves backward. -/
lemma advanceToFridayGo_ge : ∀ fuel s, s ≤ advanceToFridayGo fuel s := by
  intro fuel
  induction fuel with
  | zero => intro s; simp [advanceToFridayGo]
  | succ fuel ih =>
    intro s
    simp only [advanceToFridayGo]
    split
    · exact Nat.le_refl s
    · exact Nat.le_trans (Nat.le_succ s) (ih (s + 1))

lemma advanceToFriday_ge (s : Nat) : s ≤ advanceToFriday s :=
  advanceToFridayGo_ge 7 s

lemma weeklyLoop_length (cal : Calendar) : ∀ n f, (weeklyLoop cal n f).length = n := by
  intro n
  induction n with
  | zero => intro f; rfl
  | succ n ih => intro f; simp [weeklyLoop, ih]

/-- Every date the weekly loop emits stays at or after a business-day lower
bound on its running anchor. -/
lemma weeklyLoop_ge (cal : Calendar) (d : Nat) (hb : cal.isBusinessDay d = true) :
    ∀ n f, d ≤ f → ∀ e ∈ weeklyLoop cal n f, d ≤ e := by
  intro n
  induction n with
  | zero => intro f _ e he; simp [weeklyLoop] at he
  | succ n ih =>
    intro f hf e he
    simp only [weeklyLoop, List.mem_cons] at he
    have hnext : d ≤ cal.adjust (advanceToFriday (f + 7)) := by
      refine Calendar.adjust_ge cal d _ hb ?_
      exact Nat.le_trans (by omega) (advanceToFriday_ge (f + 7))
    rcases he with rfl | he
    · exact hnext
    · exact ih _ hnext e he

/-- If the pricing date is a business day, no weekly expiry precedes it. -/
lemma getWeeklyExpiries_ge (cal : Calendar) (d n : Nat)
    (hb : cal.isBusinessDay d = true) :
    ∀ e ∈ getWeeklyExpiries cal d n, d ≤ e := by
  intro e he
  simp only [getWeeklyExpiries, List.mem_cons] at he
  have hanchor : d ≤ cal.adjust (d + (6 + 7 - weekday d) % 7) :=
    Calendar.adjust_ge cal d _ hb (Nat.le_add_right _ _)
  rcases he with rfl | he
  · exact hanchor
  · exact weeklyLoop_ge cal d hb n _ hanchor e he

lemma getLastD_mem : ∀ (l : List Nat) (a : Nat), l ≠ [] → l.getLastD a ∈ l := by
  intro l
  induction l with
  | nil => intro a h; exact absurd rfl h
  | cons x xs ih =>
    intro a _
    rcases hxs : xs with _ | ⟨y, ys⟩
    · simp [List.getLastD]
    · subst hxs
      have h1 := ih x (by simp)
      simpa [List.getLastD_cons] using List.mem_cons_of_mem x h1

/-- The length of the raw monthly list is the month count. -/
lemma thirdFridayRaw_length (cal : Calendar) (y m n : Nat) :
    (thirdFridayRaw cal y m n).length = n := by
  simp [thirdFridayRaw]

/-- Cons-decomposition of the raw monthly list. -/
lemma thirdFridayRaw_succ (cal : Calendar) (y m k : Nat) :
    thirdFridayRaw cal y m (k + 1)
      = thirdFridayOfMonth cal (y + (m + 0 - 1) / 12) ((m + 0 - 1) % 12 + 1)
        :: (List.range k).map (fun j =>
              thirdFridayOfMonth cal (y + (m + (j + 1) - 1) / 12)
                ((m + (j + 1) - 1) % 12 + 1)) := by
  simp [thirdFridayRaw, List.range_succ_eq_map, List.map_map, Function.comp_def]

/-- If the pricing date is a business day (and a valid calendar date), no
monthly expiry surviving the drop rule precedes it. -/
lemma getThirdFridayExpiries_ge (cal : Calendar) (y m day n : Nat)
    (hm1 : 1 ≤ m) (hm2 : m ≤ 12) (hy : 1901 ≤ y) (hd2 : day ≤ 31)
    (hb : cal.isBusinessDay (serialOfYmd y m day) = true) :
    ∀ e ∈ getThirdFridayExpiries cal y m day n, serialOfYmd y m day ≤ e := by
  have hidx : ∀ i, 1 ≤ i →
      serialOfYmd y m day
        ≤ thirdFridayOfMonth cal (y + (m + i - 1) / 12) ((m + i - 1) % 12 + 1) := by
    intro i hi
    have h28 := serial_month_idx y m hm1 hm2 hy i hi
    have h31 := serial_day_le_31 y m day hd2
    unfold thirdFridayOfMonth
    refine Calendar.adjust_ge cal _ _ hb ?_
    refine Nat.le_trans ?_
      (advanceToFriday_ge (serialOfYmd (y + (m + i - 1) / 12) ((m + i - 1) % 12 + 1) 1 + 14))
    omega
  intro e he
  rcases n with _ | k
  · simp [getThirdFridayExpiries, thirdFridayRaw] at he
  · rw [getThirdFridayExpiries, thirdFridayRaw_succ] at he
    set F0 := thirdFridayOfMonth cal (y + (m + 0 - 1) / 12) ((m + 0 - 1) % 12 + 1) with hF0
    set tl := (List.range k).map (fun j =>
      thirdFridayOfMonth cal (y + (m + (j + 1) - 1) / 12) ((m + (j + 1) - 1) % 12 + 1))
      with htl
    have htail : ∀ e ∈ tl, serialOfYmd y m day ≤ e := by
      intro e he
      rw [htl] at he
      rcases List.mem_map.mp he with ⟨j, _, rfl⟩
      exact hidx (j + 1) (by omega)
    have hkept : ∀ e ∈ (if serialOfYmd y m day > F0 then tl else F0 :: tl),
        serialOfYmd y m day ≤ e := by
      split

      · exact htail
      · next h =>
        intro e he
        rcases List.mem_cons.mp he with rfl | he
        · omega
        · exact htail e he
    have main : ∀ L : List Nat, (∀ x ∈ L, serialOfYmd y m day ≤ x) →
        e ∈ (if 6 < L.length then L.take 6 ++ [L.getLastD 0] else L) →
        serialOfYmd y m day ≤ e := by
      intro L hL heL
      split at heL
      · next hlen =>
        rcases List.mem_append.mp heL with h | h
        · exact hL e (List.take_subset _ _ h)
        · rcases List.mem_singleton.mp h with rfl
          refine hL _ (getLastD_mem _ _ ?_)
          intro hnil
          rw [hnil] at hlen
          simp at hlen
      · exact hL e heL
    simp only at he
    exact main _ hkept he

/-- `Except` bind on an error propagates the error (do-notation reduction). -/
lemma error_bind {α β : Type} (e : String) (f : α → Except String β) :
    (Except.error e : Except String α) >>= f = Except.error e := rfl

/-- `Except` bind on a success applies the continuation. -/
lemma ok_bind {α β : Type} (a : α) (f : α → Except String β) :
    (Except.ok a : Except String α) >>= f = f a := rfl

/-! ## Claim theorems -/

/-- C2 (counterexample): the original claim — "the first date of the generated
expiry schedule is never strictly before the pricing date, for every pricing
date and configured calendar" — is false.  Take pricing date 2024-03-29
(serial 45380, a Friday) under a calendar in which that Friday is a holiday
(NYSE observes Good Friday, and 2024-03-29 was Good Friday).  The weekly
anchor is the pricing date itself; the "Preceding" roll moves it back to
Thursday 2024-03-28 (serial 45379), which becomes the first entry of the
merged, sorted schedule — strictly before the pricing date.  The monthly drop
rule does not help: it only prunes the monthly list. -/
theorem generateExpiries_first_before_pricing_date_cx :
    (generateExpiries ⟨fun s => s == 45380⟩ 2024 3 29).head? = some 45379 ∧
    serialOfYmd 2024 3 29 = 45380 ∧ 45379 < 45380 :=
  ⟨by decide, by decide, by decide⟩

/-- C2 (amended): for every pricing date that is itself a business day of the
configured calendar, no date of the generated expiry schedule — weeklies and
monthlies merged, after the monthly-ladder drop rule — is strictly before the
pricing date; in particular the first (earliest) one is not. -/
theorem generateExpiries_ge_pricing_date (cal : Calendar) (y m day nw nm : Nat)
    (hm1 : 1 ≤ m) (hm2 : m ≤ 12) (hy : 1901 ≤ y) (hd2 : day ≤ 31)
    (hb : cal.isBusinessDay (serialOfYmd y m day) = true) :
    ∀ e ∈ generateExpiries cal y m day nw nm, serialOfYmd y m day ≤ e := by
  intro e he
  rw [generateExpiries, List.mem_insertionSort, List.mem_dedup] at he
  rcases List.mem_append.mp he with he | he
  · exact getWeeklyExpiries_ge cal _ nw hb e he
  · exact getThirdFridayExpiries_ge cal y m day nm hm1 hm2 hy hd2 hb e he

set_option maxRecDepth 8192 in
/-- Witness for C2 (amended): pricing date 2024-01-02 (serial 45293, a
Tuesday, a business day under a no-holiday calendar); the schedule contains
Friday 2024-01-05 (serial 45296) and the theorem yields 45293 ≤ 45296. -/
theorem generateExpiries_ge_pricing_date_witness :
    Calendar.isBusinessDay ⟨fun _ => false⟩ (serialOfYmd 2024 1 2) = true ∧
    serialOfYmd 2024 1 2 ≤ 45296 :=
  ⟨by decide,
   generateExpiries_ge_pricing_date ⟨fun _ => false⟩ 2024 1 2 4 13
     (by decide) (by decide) (by decide) (by decide) (by decide) 45296 (by decide)⟩

/-- C3: for every pricing date and calendar, the monthly generator with its
default count 13 drops its first raw entry exactly when that (rolled) third
Friday is strictly before the pricing date, and the result is exactly the
first 6 surviving entries plus the single (positionally) last one — 7 entries
in total, since 12 or 13 always survive the drop. -/
theorem getThirdFridayExpiries_ladder (cal : Calendar) (y m day : Nat) :
    (getThirdFridayExpiries cal y m day 13).length = 7 ∧
    getThirdFridayExpiries cal y m day 13
      = (if serialOfYmd y m day > (thirdFridayRaw cal y m 13).headD 0
         then (thirdFridayRaw cal y m 13).tail
         else thirdFridayRaw cal y m 13).take 6
        ++ [(if serialOfYmd y m day > (thirdFridayRaw cal y m 13).headD 0
             then (thirdFridayRaw cal y m 13).tail
             else thirdFridayRaw cal y m 13).getLastD 0] := by
  have hlen := thirdFridayRaw_length cal y m 13
  rcases hraw : thirdFridayRaw cal y m 13 with _ | ⟨F0, tl⟩
  · rw [hraw] at hlen
    simp at hlen
  · rw [hraw] at hlen
    simp only [List.length_cons] at hlen
    have htl : tl.length = 12 := by omega
    have heq : getThirdFridayExpiries cal y m day 13
        = (let kept := if serialOfYmd y m day > F0 then tl else F0 :: tl
           if 6 < kept.length then kept.take 6 ++ [kept.getLastD 0] else kept) := by
      rw [getThirdFridayExpiries, hraw]
    by_cases hd : serialOfYmd y m day > F0
    · simp only [heq, List.headD_cons, List.tail_cons, hd, if_true]
      have h6 : 6 < tl.length := by omega
      simp only [h6, if_true]
      refine ⟨?_, trivial⟩
      simp [List.length_take]
      omega
    · simp only [heq, List.headD_cons, List.tail_cons, hd, if_false]
      have h6 : 6 < (F0 :: tl).length := by simp; omega
      simp only [h6, if_true]
      refine ⟨?_, trivial⟩
      simp [List.length_take]
      omega

/-- C4: the weekly generator emits exactly `count + 1` dates for every
calendar, pricing date and count; its first entry is the anchor
`pricing date + (6 − weekday) mod 7` rolled to the preceding business day (the
pricing date itself when it is a Friday); concretely, for pricing date
2024-01-02 (a Tuesday) with count 4 it emits 5 dates whose first is (the
preceding-business-day roll of) Friday 2024-01-05 — exactly 2024-01-05 under a
holiday-free calendar — and a Friday pricing date (2024-01-05) anchors at
itself. -/
theorem getWeeklyExpiries_spec :
    (∀ (cal : Calendar) (d n : Nat),
       (getWeeklyExpiries cal d n).length = n + 1 ∧
       (getWeeklyExpiries cal d n).head?
         = some (cal.adjust (d + (6 + 7 - weekday d) % 7))) ∧
    (∀ cal : Calendar,
       (getWeeklyExpiries cal (serialOfYmd 2024 1 2) 4).length = 5 ∧
       (getWeeklyExpiries cal (serialOfYmd 2024 1 2) 4).head?
         = some (cal.adjust (serialOfYmd 2024 1 5))) ∧
    (getWeeklyExpiries ⟨fun _ => false⟩ (serialOfYmd 2024 1 2) 4).head?
      = some (serialOfYmd 2024 1 5) ∧
    (getWeeklyExpiries ⟨fun _ => false⟩ (serialOfYmd 2024 1 5) 4).head?
      = some (serialOfYmd 2024 1 5) := by
  have h1 : ∀ (cal : Calendar) (d n : Nat),
      (getWeeklyExpiries cal d n).length = n + 1 ∧
      (getWeeklyExpiries cal d n).head?
        = some (cal.adjust (d + (6 + 7 - weekday d) % 7)) := by
    intro cal d n
    exact ⟨by simp [getWeeklyExpiries, weeklyLoop_length], by simp [getWeeklyExpiries]⟩
  refine ⟨h1, fun cal => ?_, by decide, by decide⟩
  have h2 := h1 cal (serialOfYmd 2024 1 2) 4
  have he : serialOfYmd 2024 1 2 + (6 + 7 - weekday (serialOfYmd 2024 1 2)) % 7
      = serialOfYmd 2024 1 5 := by decide
  rw [he] at h2
  exact h2

/-- C1 (counterexample): the original claim — "for every model the factory
returns and the supported engine kinds, `create_engine` returns a concrete,
immediately usable engine" — is false: the model factory happily returns a
Black-Scholes-Merton model with `vol_surface = None` (its default), and
`create_engine(model, "analytic")` then fails with a `TypeError` from
`model.build()` instead of returning an engine. -/
theorem create_engine_supported_pair_cx :
    ModelFactory.create_model "bsm" 100 ⟨1/100⟩ ⟨1/20⟩ none none
      = .ok (.bsm ⟨100, ⟨1/100⟩, ⟨1/20⟩, none⟩) ∧
    EngineFactory.create_engine (.bsm ⟨100, ⟨1/100⟩, ⟨1/20⟩, none⟩) "analytic" 100
      = .error "TypeError: vol_surface must be a QuantLib BlackVolTermStructure" :=
  ⟨rfl, rfl⟩

/-- C1 (amended): for every model the factory returns whose `build()`
succeeds, the supported pairings (Black-Scholes-Merton with "analytic" or
"binomial", Heston with "heston") yield a concrete, fully built engine, and
every other engine-kind string fails with an unsupported-pairing `ValueError`
and returns no engine. -/
theorem create_engine_dispatch (model : Model) (ek : String) (steps : Nat) :
    (∀ m : BlackScholesModel, model = .bsm m →
       (∀ p : BsmProcess, m.build = .ok p →
          EngineFactory.create_engine model "analytic" steps = .ok (.analyticEuropean p) ∧
          EngineFactory.create_engine model "binomial" steps
            = .ok (.binomialVanilla p "crr" steps)) ∧
       (ek ≠ "analytic" → ek ≠ "binomial" →
          EngineFactory.create_engine model ek steps
            = .error ("Unknown engine type for Black-Scholes: " ++ ek))) ∧
    (∀ m : HestonModel, model = .heston m →
       (∀ p : HestonQlModel, m.build = .ok p →
          EngineFactory.create_engine model "heston" steps = .ok (.analyticHeston p)) ∧
       (ek ≠ "heston" →
          EngineFactory.create_engine model ek steps
            = .error ("Unknown engine type for Heston model: " ++ ek))) := by
  constructor
  · rintro m rfl
    constructor
    · intro p hp
      constructor
      · simp [EngineFactory.create_engine, hp, AnalyticEuropeanEngine.build, Except.map]
      · simp [EngineFactory.create_engine, hp, BinomialEngine.build, Except.map]
    · intro h1 h2
      simp [EngineFactory.create_engine, h1, h2]
  · rintro m rfl
    constructor
    · intro p hp
      simp [EngineFactory.create_engine, hp, HestonEngine.build, Except.map]
    · intro h1
      simp [EngineFactory.create_engine, h1]

/-- Witness for C1 (amended): a factory-produced BSM model with a Black
volatility surface; "analytic" and "binomial" succeed with concrete engines
and "heston" fails with the pairing error. -/
theorem create_engine_dispatch_witness :
    (Model.bsm ⟨100, ⟨1/100⟩, ⟨1/20⟩, some (.black (1/5))⟩ = Model.bsm ⟨100, ⟨1/100⟩, ⟨1/20⟩, some (.black (1/5))⟩) ∧
    (BlackScholesModel.build ⟨100, ⟨1/100⟩, ⟨1/20⟩, some (.black (1/5))⟩
      = .ok ⟨100, ⟨1/100⟩, ⟨1/20⟩, 1/5⟩) ∧
    EngineFactory.create_engine (.bsm ⟨100, ⟨1/100⟩, ⟨1/20⟩, some (.black (1/5))⟩)
        "analytic" 100 = .ok (.analyticEuropean ⟨100, ⟨1/100⟩, ⟨1/20⟩, 1/5⟩) ∧
    EngineFactory.create_engine (.bsm ⟨100, ⟨1/100⟩, ⟨1/20⟩, some (.black (1/5))⟩)
        "binomial" 100 = .ok (.binomialVanilla ⟨100, ⟨1/100⟩, ⟨1/20⟩, 1/5⟩ "crr" 100) ∧
    EngineFactory.create_engine (.bsm ⟨100, ⟨1/100⟩, ⟨1/20⟩, some (.black (1/5))⟩)
        "heston" 100 = .error "Unknown engine type for Black-Scholes: heston" := by
  have h := create_engine_dispatch (.bsm ⟨100, ⟨1/100⟩, ⟨1/20⟩, some (.black (1/5))⟩)
    "heston" 100
  have h1 := (h.1 _ rfl).1 ⟨100, ⟨1/100⟩, ⟨1/20⟩, 1/5⟩ rfl
  have h2 := (h.1 _ rfl).2 (by decide) (by decide)
  exact ⟨rfl, rfl, h1.1, h1.2, h2⟩

/-- C5: whenever `price()` succeeds, the quote satisfies `bid = mid − s/2` and
`ask = mid + s/2` for spread `s > 0`, `bid = ask = mid` for `s = 0`, hence
`ask − bid = s` and `bid ≤ ask` for every `s ≥ 0`; the formulas are exact — in
particular no clamping of a negative bid takes place. -/
theorem price_bid_ask (inst : OptionInstrument) (settings : QlSettings)
    (npv : QlEngine → VanillaOption → ℚ) (eng : QlEngine) (opt : VanillaOption)
    (hopt : inst.build_option settings = .ok opt)
    (heng : inst.engine = some eng)
    (hs : 0 ≤ inst.bid_ask_spread) :
    ∃ q : PriceQuote, inst.price settings npv = .ok q ∧
      q.mid = npv eng opt ∧
      (0 < inst.bid_ask_spread →
        q.bid = q.mid - inst.bid_ask_spread / 2 ∧
        q.ask = q.mid + inst.bid_ask_spread / 2) ∧
      (inst.bid_ask_spread = 0 → q.bid = q.mid ∧ q.ask = q.mid) ∧
      q.ask - q.bid = inst.bid_ask_spread ∧
      q.bid ≤ q.ask := by
  by_cases hpos : 0 < inst.bid_ask_spread
  · refine ⟨⟨npv eng opt, npv eng opt - inst.bid_ask_spread / 2,
        npv eng opt + inst.bid_ask_spread / 2⟩, ?_, rfl, ?_, ?_, ?_, ?_⟩
    · simp [OptionInstrument.price, hopt, heng, hpos]
    · exact fun _ => ⟨rfl, rfl⟩
    · intro h0
      rw [h0] at hpos
      exact absurd hpos (by norm_num)
    · ring
    · have h2 : 0 ≤ inst.bid_ask_spread / 2 := by positivity
      linarith
  · have h0 : inst.bid_ask_spread = 0 := le_antisymm (not_lt.mp hpos) hs
    refine ⟨⟨npv eng opt, npv eng opt, npv eng opt⟩, ?_, rfl, ?_, ?_, ?_, le_refl _⟩
    · simp [OptionInstrument.price, hopt, heng, h0]
    · intro h
      rw [h0] at h
      exact absurd h (by norm_num)
    · exact fun _ => ⟨rfl, rfl⟩
    · rw [h0]
      ring

/-- Witness for C5: scenario D of the spec — mid 5.00, spread 0.10 under an
engine returning NPV 5 — yields the quote `{mid 5, bid 4.95, ask 5.05}`. -/
theorem price_bid_ask_witness :
    ∃ q : PriceQuote,
      OptionInstrument.price
          ⟨"call", 100, 45296, "european",
           some (.analyticEuropean ⟨100, ⟨1/100⟩, ⟨1/20⟩, 1/5⟩), 1/10⟩
          ⟨45293⟩ (fun _ _ => 5) = .ok q ∧
      q.mid = (fun (_ : QlEngine) (_ : VanillaOption) => (5 : ℚ))
          (.analyticEuropean ⟨100, ⟨1/100⟩, ⟨1/20⟩, 1/5⟩)
          ⟨⟨.Call, 100⟩, .european 45296⟩ ∧
      ((0 : ℚ) < 1/10 →
        q.bid = q.mid - (1/10 : ℚ) / 2 ∧ q.ask = q.mid + (1/10 : ℚ) / 2) ∧
      ((1/10 : ℚ) = 0 → q.bid = q.mid ∧ q.ask = q.mid) ∧
      q.ask - q.bid = (1/10 : ℚ) ∧
      q.bid ≤ q.ask :=
  price_bid_ask
    ⟨"call", 100, 45296, "european",
     some (.analyticEuropean ⟨100, ⟨1/100⟩, ⟨1/20⟩, 1/5⟩), 1/10⟩
    ⟨45293⟩ (fun _ _ => 5)
    (.analyticEuropean ⟨100, ⟨1/100⟩, ⟨1/20⟩, 1/5⟩)
    ⟨⟨.Call, 100⟩, .european 45296⟩ rfl rfl (by norm_num)

/-- C6: payoff construction.  In the packaged copy
(`pricing_engine/instruments/option.py`) the claim holds: "call" yields the
vanilla call payoff at the strike, "put" the vanilla put payoff, anything else
the unknown-type `ValueError`.  The draft copy (`src/instruments/option.py`)
misspells `ql.Option.Put` as `ql.Option.put`, so its "put" branch raises
`AttributeError` instead of building the put payoff — the code bug this claim
exposes. -/
theorem payoff_construction (inst : OptionInstrument) :
    (inst.option_type = "call" →
       inst.payoff = .ok ⟨.Call, inst.strike⟩ ∧
       inst.payoffSrcDraft = .ok ⟨.Call, inst.strike⟩) ∧
    (inst.option_type = "put" → inst.payoff = .ok ⟨.Put, inst.strike⟩) ∧
    (inst.option_type ≠ "call" → inst.option_type ≠ "put" →
       inst.payoff = .error ("Unknown option type: " ++ inst.option_type) ∧
       inst.payoffSrcDraft = .error ("Unknown option type: " ++ inst.option_type)) ∧
    (inst.option_type = "put" →
       inst.payoffSrcDraft = .error "AttributeError: type object Option has no attribute put") := by
  refine ⟨?_, ?_, ?_, ?_⟩
  · intro h
    exact ⟨by simp [OptionInstrument.payoff, h],
           by simp [OptionInstrument.payoffSrcDraft, h]⟩
  · intro h
    simp [OptionInstrument.payoff, h]
  · intro h1 h2
    exact ⟨by simp [OptionInstrument.payoff, h1, h2],
           by simp [OptionInstrument.payoffSrcDraft, h1, h2]⟩
  · intro h
    simp [OptionInstrument.payoffSrcDraft, h]

/-- Witness for C6: at the failing input `option_type = "put"` the packaged
copy returns the put payoff (as the claim states) while the draft copy raises
the `AttributeError`. -/
theorem payoff_construction_witness :
    OptionInstrument.payoff ⟨"put", 100, 45296, "european", none, 0⟩
      = .ok ⟨.Put, 100⟩ ∧
    OptionInstrument.payoffSrcDraft ⟨"put", 100, 45296, "european", none, 0⟩
      = .error "AttributeError: type object Option has no attribute put" :=
  ⟨(payoff_construction ⟨"put", 100, 45296, "european", none, 0⟩).2.1 rfl,
   (payoff_construction ⟨"put", 100, 45296, "european", none, 0⟩).2.2.2 rfl⟩

/-- C7 (counterexample): the original claim — the model factory "fails fast —
before any model object is returned — when the Heston parameters are missing"
— is false: with `heston_params = None` (the parameter's default) the factory
returns a fully constructed Heston model object and raises nothing. -/
theorem create_model_heston_missing_params_cx :
    ModelFactory.create_model "heston" 100 ⟨1/100⟩ ⟨1/20⟩ none none
      = .ok (.heston ⟨100, ⟨1/20⟩, ⟨1/100⟩, none⟩) := rfl

/-- C7 (amended): for `model_kind = "heston"` the factory returns the model
object immediately, storing whatever `heston_params` it was given and ignoring
`vol_surface` entirely (the result does not mention it); the five Heston
parameters are required only by `build()`: with the parameters present the
build succeeds, with them missing it raises — at engine-construction time,
hence still before any pricing occurs. -/
theorem create_model_heston_lazy (spot : ℚ) (dc rc : YieldCurve)
    (vs : Option QlVolSurface) (hp : Option HestonParams) :
    ModelFactory.create_model "heston" spot dc rc vs hp
      = .ok (.heston ⟨spot, rc, dc, hp⟩) ∧
    (∀ p : HestonParams, HestonModel.build ⟨spot, rc, dc, some p⟩
      = .ok ⟨rc, dc, spot, p⟩) ∧
    HestonModel.build ⟨spot, rc, dc, none⟩
      = .error "AttributeError: NoneType object has no attribute v0" ∧
    EngineFactory.create_engine (.heston ⟨spot, rc, dc, none⟩) "heston" 100
      = .error "AttributeError: NoneType object has no attribute v0" :=
  ⟨rfl, fun _ => rfl, rfl, rfl⟩

/-- C8: `OptionInstrument` construction performs no validation — it succeeds
for every option type and exercise style, storing the arguments verbatim —
and the unknown-type / unknown-style errors are raised only when `price()` is
invoked, whether a valid engine is attached or not (the `engine` argument is
arbitrary here). -/
theorem instrument_construction_lazy (ot : String) (strike : ℚ) (expiry : Nat)
    (style : String) (engine : Option QlEngine) (spread : ℚ) :
    (OptionInstrument.mk ot strike expiry style engine spread).option_type = ot ∧
    (OptionInstrument.mk ot strike expiry style engine spread).strike = strike ∧
    (OptionInstrument.mk ot strike expiry style engine spread).expiry = expiry ∧
    (OptionInstrument.mk ot strike expiry style engine spread).style = style ∧
    (OptionInstrument.mk ot strike expiry style engine spread).engine = engine ∧
    (OptionInstrument.mk ot strike expiry style engine spread).bid_ask_spread = spread ∧
    (ot ≠ "call" → ot ≠ "put" →
       ∀ (settings : QlSettings) (npv : QlEngine → VanillaOption → ℚ),
       (OptionInstrument.mk ot strike expiry style engine spread).price settings npv
         = .error ("Unknown option type: " ++ ot)) ∧
    ((ot = "call" ∨ ot = "put") → style ≠ "european" → style ≠ "american" →
       ∀ (settings : QlSettings) (npv : QlEngine → VanillaOption → ℚ),
       (OptionInstrument.mk ot strike expiry style engine spread).price settings npv
         = .error ("Unknown option style: " ++ style)) := by
  refine ⟨rfl, rfl, rfl, rfl, rfl, rfl, ?_, ?_⟩
  · intro h1 h2 settings npv
    simp [OptionInstrument.price, OptionInstrument.build_option,
      OptionInstrument.payoff, h1, h2, error_bind, ok_bind]
  · rintro (h | h) h1 h2 settings npv <;>
      simp [OptionInstrument.price, OptionInstrument.build_option,
        OptionInstrument.payoff, OptionInstrument.exercise, h, h1, h2,
        error_bind, ok_bind]

/-- Witness for C8: scenario C — option type "straddle" with a valid binomial
engine attached constructs fine, and `price()` then fails with the
unknown-option-type error. -/
theorem instrument_construction_lazy_witness :
    ("straddle" : String) ≠ "call" ∧ ("straddle" : String) ≠ "put" ∧
    OptionInstrument.price
        (OptionInstrument.mk "straddle" 100 45296 "european"
          (some (.binomialVanilla ⟨100, ⟨1/100⟩, ⟨1/20⟩, 1/5⟩ "crr" 100)) (1/10))
        ⟨45293⟩ (fun _ _ => 5)
      = .error ("Unknown option type: " ++ "straddle") :=
  ⟨by decide, by decide,
   (instrument_construction_lazy "straddle" 100 45296 "european"
      (some (.binomialVanilla ⟨100, ⟨1/100⟩, ⟨1/20⟩, 1/5⟩ "crr" 100))
      (1/10)).2.2.2.2.2.2.1 (by decide) (by decide) ⟨45293⟩ (fun _ _ => 5)⟩

/-- C9: constructing a `MarketEnvironment` overwrites the process-wide
valuation date with that environment's pricing date; an American-style
instrument's exercise object reads that state when it is built (at price
time), so after a second environment is constructed the American window of a
previously created instrument starts at the second environment's pricing
date, not the first's. -/
theorem valuation_date_frame_effect (y₁ m₁ d₁ y₂ m₂ d₂ : Nat)
    (cal₁ cal₂ : Calendar) (s₀ : QlSettings) (inst : OptionInstrument)
    (hst : inst.style = "american") :
    (MarketEnvironment.init y₁ m₁ d₁ cal₁ s₀).2.evaluationDate
      = serialOfYmd y₁ m₁ d₁ ∧
    (MarketEnvironment.init y₂ m₂ d₂ cal₂
        (MarketEnvironment.init y₁ m₁ d₁ cal₁ s₀).2).2.evaluationDate
      = serialOfYmd y₂ m₂ d₂ ∧
    inst.exercise (MarketEnvironment.init y₁ m₁ d₁ cal₁ s₀).2
      = .ok (.american (serialOfYmd y₁ m₁ d₁) inst.expiry) ∧
    inst.exercise (MarketEnvironment.init y₂ m₂ d₂ cal₂
        (MarketEnvironment.init y₁ m₁ d₁ cal₁ s₀).2).2
      = .ok (.american (serialOfYmd y₂ m₂ d₂) inst.expiry) := by
  have hex : ∀ s : QlSettings,
      inst.exercise s = .ok (.american s.evaluationDate inst.expiry) := by
    intro s
    simp [OptionInstrument.exercise, hst]
  exact ⟨rfl, rfl, hex _, hex _⟩

/-- Witness for C9: an American call built before two environments
(pricing dates 2024-01-02 then 2024-03-29) ends up with its exercise window
starting at the second environment's pricing date. -/
theorem valuation_date_frame_effect_witness :
    (MarketEnvironment.init 2024 1 2 ⟨fun _ => false⟩ ⟨0⟩).2.evaluationDate
      = serialOfYmd 2024 1 2 ∧
    (MarketEnvironment.init 2024 3 29 ⟨fun _ => false⟩
        (MarketEnvironment.init 2024 1 2 ⟨fun _ => false⟩ ⟨0⟩).2).2.evaluationDate
      = serialOfYmd 2024 3 29 ∧
    OptionInstrument.exercise
        (OptionInstrument.mk "call" 100 45500 "american" none 0)
        (MarketEnvironment.init 2024 1 2 ⟨fun _ => false⟩ ⟨0⟩).2
      = .ok (.american (serialOfYmd 2024 1 2) 45500) ∧
    OptionInstrument.exercise
        (OptionInstrument.mk "call" 100 45500 "american" none 0)
        (MarketEnvironment.init 2024 3 29 ⟨fun _ => false⟩
          (MarketEnvironment.init 2024 1 2 ⟨fun _ => false⟩ ⟨0⟩).2).2
      = .ok (.american (serialOfYmd 2024 3 29) 45500) :=
  valuation_date_frame_effect 2024 1 2 2024 3 29 ⟨fun _ => false⟩ ⟨fun _ => false⟩
    ⟨0⟩ (OptionInstrument.mk "call" 100 45500 "american" none 0) rfl

/-- C10: inside `price()` the payoff and exercise objects are built before the
missing-engine check, so with no engine attached an unknown option type (or,
for a valid type, an unknown style) still produces the corresponding
instrument-definition error, and the "no pricing engine set" error is reached
exactly when both the type and the style are valid. -/
theorem price_validation_order (inst : OptionInstrument) (settings : QlSettings)
    (npv : QlEngine → VanillaOption → ℚ) (heng : inst.engine = none) :
    (inst.option_type ≠ "call" → inst.option_type ≠ "put" →
       inst.price settings npv
         = .error ("Unknown option type: " ++ inst.option_type)) ∧
    ((inst.option_type = "call" ∨ inst.option_type = "put") →
       inst.style ≠ "european" → inst.style ≠ "american" →
       inst.price settings npv
         = .error ("Unknown option style: " ++ inst.style)) ∧
    ((inst.option_type = "call" ∨ inst.option_type = "put") →
       (inst.style = "european" ∨ inst.style = "american") →
       inst.price settings npv
         = .error "No pricing engine set. Pass it during init or set `self.engine` before calling price().") := by
  refine ⟨?_, ?_, ?_⟩
  · intro h1 h2
    simp [OptionInstrument.price, OptionInstrument.build_option,
      OptionInstrument.payoff, h1, h2, error_bind, ok_bind]
  · rintro (h | h) h1 h2 <;>
      simp [OptionInstrument.price, OptionInstrument.build_option,
        OptionInstrument.payoff, OptionInstrument.exercise, h, h1, h2,
        error_bind, ok_bind]
  · rintro (h | h) (h1 | h1) <;>
      simp [OptionInstrument.price, OptionInstrument.build_option,
        OptionInstrument.payoff, OptionInstrument.exercise, h, h1, heng,
        error_bind, ok_bind]

/-- Witness for C10: a well-formed European call with no engine attached fails
with the missing-engine configuration error (not with a type/style error). -/
theorem price_validation_order_witness :
    OptionInstrument.price (OptionInstrument.mk "call" 100 45296 "european" none (1/10))
        ⟨45293⟩ (fun _ _ => 5)
      = .error "No pricing engine set. Pass it during init or set `self.engine` before calling price()." :=
  (price_validation_order (OptionInstrument.mk "call" 100 45296 "european" none (1/10))
      ⟨45293⟩ (fun _ _ => 5) rfl).2.2 (Or.inl rfl) (Or.inl rfl)

end OptionsPricing
